import Mathlib

/-!
Shallow embedding of the orchestration core of the easymoney repository
(`swarm_manager.py`, `config_manager.py`, the placement columns of
`database.py`, and the container startup script embedded as a string in
`SwarmManager.create_service`).

Docker, the sqlite database and the filesystem are modelled as explicit
state records; every orchestrator round trip that a lifecycle operation
performs is recorded in a trace so that claims of the form "no submit
call is issued" can be stated.  Python exceptions never escape the
functions modelled here (every public method wraps its body in
`try/except` and returns a `(bool, str)` pair), so the embedded
operations are total functions returning structured outcomes; fault
injection flags on the state stand for the places where the underlying
docker SDK can raise.
-/

namespace EasyMoney

/-! ## Cluster data model (docker node / service / task attributes) -/

/-- One swarm node as read from the docker API (`node.attrs`):
`Spec.Role`, `Status.State`, `Spec.Availability`, the optional
`max_containers` label, and the address fields used by
`SwarmManager._get_node_ip`.  `dns_resolved` stands for the result of the
`socket.gethostbyname` fallback on the hostname. -/
structure NodeRec where
  id : String
  hostname : String
  role : String := "worker"
  state : String := "ready"
  availability : String := "active"
  max_label : Option Int := none
  manager_addr : Option String := none
  status_addr : Option String := none
  dns_resolved : Option String := none
deriving Repr, DecidableEq

/-- One task of a service (`service.tasks()` entry): the node it is
scheduled on, its `DesiredState` and its `Status.State`. -/
structure TaskRec where
  node_id : String
  desired_state : String := "running"
  state : String := "running"
deriving Repr, DecidableEq

/-- The service spec submitted by `SwarmManager.create_service` step 5-11:
image, name, env list, the three bind mounts (only the read-only flags
matter to the claims; targets are fixed strings in the source), the
ingress port pair, the placement constraint and the labels. -/
structure ServiceSpecRec where
  image : String
  name : String
  env : List (String × String)
  config_mount_target : String
  config_mount_read_only : Bool
  logs_mount_read_only : Bool
  db_mount_read_only : Bool
  target_port : Nat
  published_port : Nat
  constraint_node_id : String
  labels : List (String × String)
deriving Repr, DecidableEq

/-- One service known to the orchestrator.  `log_lines` models the
combined stdout/stderr stream that `service.logs` tails; `spec` is the
submitted spec for services created by the embedded `create_service`
(pre-existing services carry `none`). -/
structure ServiceRec where
  name : String
  labels : List (String × String) := []
  tasks : List TaskRec := []
  log_lines : List String := []
  spec : Option ServiceSpecRec := none
deriving Repr, DecidableEq

/-- Docker-side state.  `connected` is `self.client is not None`;
`enum_fails_for` injects the `except` branch of
`_get_node_container_count` for the listed node ids; `create_fails` and
`api_fault` inject `docker.errors.APIError` on `services.create` and on
`service.remove` / `service.logs` respectively. -/
structure DockerState where
  connected : Bool := true
  nodes : List NodeRec := []
  services : List ServiceRec := []
  enum_fails_for : List String := []
  create_fails : Bool := false
  api_fault : Bool := false
deriving Repr, DecidableEq

/-! ## Database state (the placement columns of the `users` table) -/

/-- One row of the `users` table, restricted to the columns the
orchestration core reads or writes (`database.py` schema plus the
`node_ip` / `api_port` columns added by `update_service_info`). -/
structure UserRec where
  user_id : Nat
  name : String := ""
  status : String := "停止"
  security : Option String := none
  api_key : Option String := none
  service_id : Option String := none
  service_name : Option String := none
  node_ip : Option String := none
  api_port : Option Nat := none
deriving Repr, DecidableEq

/-- One row of `user_subscriptions` joined with its plan, restricted to
what `get_user_subscription` returns (`max_capital` is the
`actual_capital` column). -/
structure SubscriptionRec where
  user_id : Nat
  max_capital : Int
  status : String := "active"
deriving Repr, DecidableEq

structure DbState where
  users : List UserRec := []
  subscriptions : List SubscriptionRec := []
deriving Repr, DecidableEq

/-- Embeds `Database.get_user_by_telegram_id`: `SELECT * FROM users WHERE
user_id = ?`. -/
def get_user_by_telegram_id (db : DbState) (uid : Nat) : Option UserRec :=
  db.users.find? (fun u => u.user_id == uid)

/-- Embeds `Database.get_user_subscription`: latest row with `status='active'`
for the user (the `ORDER BY end_date` refinement is irrelevant here; the
lookup is modelled as first active row). -/
def get_user_subscription (db : DbState) (uid : Nat) : Option SubscriptionRec :=
  db.subscriptions.find? (fun s => s.user_id == uid && s.status == "active")

/-- Embeds `Database.update_user_status`: `UPDATE users SET status = ? WHERE
user_id = ?`. -/
def update_user_status (db : DbState) (uid : Nat) (s : String) : DbState :=
  { db with users := db.users.map (fun u =>
      if u.user_id == uid then { u with status := s } else u) }

/-- Embeds `Database.clear_service_info`: `UPDATE users SET service_id = NULL,
service_name = NULL WHERE user_id = ?`.  Note that the statement touches
neither `node_ip` nor `api_port` nor `status`. -/
def clear_service_info (db : DbState) (uid : Nat) : DbState :=
  { db with users := db.users.map (fun u =>
      if u.user_id == uid then { u with service_id := none, service_name := none } else u) }

/-- Embeds `Database.update_service_info`: the UPDATE statement ends in
`WHERE telegram_id = ?`, but the `users` table created in `init_database`
(and the two ALTER TABLE statements above it) has no `telegram_id`
column, so sqlite raises `OperationalError: no such column`; the
surrounding `try/except` swallows it and only prints an error.  The net
effect on the user rows is therefore the identity. -/
def update_service_info (db : DbState) (_uid : Nat) (_service_id _service_name : String)
    (_node_ip : String) (_api_port : Nat) : DbState :=
  db

/-! ## Capacity probe (`_get_node_container_count`, `_get_node_max_containers`) -/

def service_has_label (s : ServiceRec) (k v : String) : Bool :=
  s.labels.any (fun p => p.1 == k && p.2 == v)

/-- Embeds `SwarmManager._get_node_container_count`: enumerate the services
labelled `app=freqtrade`, for each count its tasks on the node whose
desired state and actual state are both `running`; on an enumeration
error return the magic count `999` ("return a big number to avoid
selecting this node"). -/
def get_node_container_count (d : DockerState) (node_id : String) : Nat :=
  if d.enum_fails_for.contains node_id then 999
  else
    ((d.services.filter (fun s => service_has_label s "app" "freqtrade")).map
      (fun s => (s.tasks.filter (fun t =>
        t.node_id == node_id && t.desired_state == "running" && t.state == "running")).length)).sum

/-- Embeds `SwarmManager._get_node_max_containers`: the `max_containers` label
if present, else 30 for managers and 50 otherwise. -/
def get_node_max_containers (n : NodeRec) : Int :=
  match n.max_label with
  | some v => v
  | none => if n.role == "manager" then 30 else 50

/-! ## Node selector (`_find_best_node`) -/

/-- The entry `_find_best_node` appends to `available_nodes` for one
surviving node. -/
structure NodeLoad where
  id : String
  hostname : String
  role : String
  current : Nat
  max : Int
  available : Int
  priority : Nat
deriving Repr, DecidableEq

/-- Step 1-2 of `_find_best_node`: list worker nodes, fall back to all
nodes when there is no worker. -/
def considered_nodes (d : DockerState) : List NodeRec :=
  let workers := d.nodes.filter (fun n => n.role == "worker")
  if workers.isEmpty then d.nodes else workers

/-- Steps 3-4 of the loop body: keep ready+active nodes whose available
capacity `max - current` is positive, and record their load entry. -/
def candidate_nodes (d : DockerState) : List NodeLoad :=
  ((considered_nodes d).filter (fun n =>
      n.state == "ready" && n.availability == "active")).filterMap (fun n =>
    let current := get_node_container_count d n.id
    let mx := get_node_max_containers n
    let avail := mx - (current : Int)
    if avail > 0 then
      some { id := n.id, hostname := n.hostname, role := n.role,
             current := current, max := mx, available := avail,
             priority := if n.role == "worker" then 1 else 2 }
    else none)

/-- Strict ordering of the composite sort key
`(x['priority'], x['current'])`. -/
def node_key_lt (a b : NodeLoad) : Bool :=
  a.priority < b.priority || (a.priority == b.priority && a.current < b.current)

/-- Stable insertion used to model Python's stable `list.sort`:
an element is inserted after every earlier element whose key is strictly
below it, hence before any equal-keyed element that follows. -/
def sort_ins (x : NodeLoad) : List NodeLoad → List NodeLoad
  | [] => [x]
  | y :: ys => if node_key_lt y x then y :: sort_ins x ys else x :: y :: ys

/-- Stable sort by `(priority, current)`, as performed by
`available_nodes.sort(key=lambda x: (x['priority'], x['current']))`. -/
def sort_nodes : List NodeLoad → List NodeLoad
  | [] => []
  | x :: xs => sort_ins x (sort_nodes xs)

/-- Embeds `SwarmManager._find_best_node`: sort the candidates and take the
first, or `None` when no node survives filtering (the source prints a
different message when the cluster is empty, but returns `None` from
both sites). -/
def find_best_node (d : DockerState) : Option NodeLoad :=
  (sort_nodes (candidate_nodes d)).head?

/-- Embeds `SwarmManager._get_node_ip`: `ManagerStatus.Addr` host part, else
`Status.Addr`, else the hostname if it parses as / resolves to an IP
(the DNS outcome is the `dns_resolved` oracle field). -/
def get_node_ip (d : DockerState) (node_id : String) : Option String :=
  match d.nodes.find? (fun n => n.id == node_id) with
  | none => none
  | some n =>
    match n.manager_addr with
    | some a => ((a.splitOn ":").head?).orElse (fun _ => some a)
    | none =>
      match n.status_addr with
      | some a => some a
      | none => n.dns_resolved

/-! ## Filesystem state and ConfigManager -/

/-- The credential-relevant shape of a `config.json` document: the
`exchange.key` / `exchange.secret` fields plus the other template fields
`create_user_config` sets. -/
structure ConfigJson where
  exchange_key : String := ""
  exchange_secret : String := ""
  db_url : String := ""
  bot_name : String := ""
  api_listen_port : Nat := 0
deriving Repr, DecidableEq

/-- Host filesystem state, restricted to the files the claims are about.
`work_template` is `work_dir/config.json` (the shared base template);
`manager_templates` maps a user id to the content of
`user_data/{uid}/config/config.json`, written by
`ConfigManager.create_user_config`; `swarm_templates` maps a user id to
the content of
`/mnt/freqtrade-data/user_data_manager/{uid}/config/config.json`, the
directory `SwarmManager.create_service` checks and bind-mounts
read-only (the two managers use different base directories in the
source).  `db_touched` records the `tradesv3.sqlite` files pre-touched
by `_ensure_user_directories`. -/
structure FsState where
  work_template : Option ConfigJson := none
  manager_templates : List (Nat × ConfigJson) := []
  swarm_templates : List (Nat × ConfigJson) := []
  db_touched : List Nat := []
deriving Repr, DecidableEq

def lookup_template (ts : List (Nat × ConfigJson)) (uid : Nat) : Option ConfigJson :=
  ((ts.find? (fun p => p.1 == uid)).map (fun p => p.2))

def upsert_template (ts : List (Nat × ConfigJson)) (uid : Nat) (c : ConfigJson) :
    List (Nat × ConfigJson) :=
  (uid, c) :: ts.filter (fun p => p.1 != uid)

/-- Embeds `ConfigManager.get_user_api_port`: `8080 + (user_id % 1000)`. -/
def get_user_api_port (uid : Nat) : Nat :=
  8080 + uid % 1000

/-- The template transformation performed by
`ConfigManager.create_user_config` on the loaded base template: the
`api_key` / `secret` arguments of the Python method are deliberately
ignored and placeholder strings are stored instead. -/
def secure_template (tmpl : ConfigJson) (uid : Nat) : ConfigJson :=
  { tmpl with
    exchange_key := "PLACEHOLDER_API_KEY",
    exchange_secret := "PLACEHOLDER_SECRET",
    db_url := "sqlite:////freqtrade/custom_database/tradesv3.sqlite",
    bot_name := "freqtrade_" ++ toString uid,
    api_listen_port := 8080 }

/-- Embeds `ConfigManager.create_user_config`: load `work_dir/config.json`,
overwrite the credential fields with placeholders, write the result to
the user's `config/config.json`.  Fails (returns `false`) when the base
template is missing. -/
def create_user_config (fs : FsState) (uid : Nat) (_api_key _secret : Option String) :
    Bool × FsState :=
  match fs.work_template with
  | none => (false, fs)
  | some tmpl =>
    (true, { fs with manager_templates :=
      upsert_template fs.manager_templates uid (secure_template tmpl uid) })

/-! ## The in-container startup script

`create_service` submits the service with `command=['/bin/bash', '-c',
entrypoint_script]`; the script checks its credential environment
variables, merges them into the template with `jq`, re-reads the merged
file to verify the injection, and only then `exec`s freqtrade.  The
script below is that bash text translated to a function from the
environment list and the (mounted) template to an outcome. -/

/-- Bash variable expansion `"${NAME}"`: empty when unset, so `[ -z ]`
conflates absent and empty. -/
def getenv (env : List (String × String)) (k : String) : String :=
  (((env.find? (fun p => p.1 == k)).map (fun p => p.2))).getD ""

/-- Embeds the bash default expansion of CONFIG_RUNTIME: the value of the
variable when set and non-empty, else the container-local default path. -/
def script_runtime_path (env : List (String × String)) : String :=
  let p := getenv env "CONFIG_RUNTIME"
  if p == "" then "/freqtrade/runtime_config.json" else p

/-- The jq filter: set `.exchange.key` / `.exchange.secret` (and the
nested ccxt copies, which the flat model folds into the same two
fields) to the injected credentials. -/
def jq_inject (cfg : ConfigJson) (k s : String) : ConfigJson :=
  { cfg with exchange_key := k, exchange_secret := s }

/-- A path lies under the read-only host config mount
`/freqtrade/custom_config`. -/
def under_config_mount (p : String) : Bool :=
  p.take 25 == "/freqtrade/custom_config/" || p == "/freqtrade/custom_config"

inductive ScriptOutcome where
  /-- the script aborted with this non-zero exit code before starting
  the trading worker -/
  | exited (code : Nat)
  /-- the line exec freqtrade trade was reached; the
  merged runtime config was written at the recorded container-local
  path -/
  | running (runtime_path : String) (runtime_cfg : ConfigJson)
deriving Repr, DecidableEq

/-- The startup script of `create_service` (step 10 of the source):
abort with exit 1 when `API_KEY`/`API_SECRET`, `FT_MAX_CAPITAL` or
`REMOTE_IP` is absent or empty, or the template file is missing; else
write the jq-merged runtime config and verify the re-read credential
fields match the environment before starting freqtrade. -/
def run_startup_script (env : List (String × String)) (template : Option ConfigJson) :
    ScriptOutcome :=
  let api_key := getenv env "API_KEY"
  let api_secret := getenv env "API_SECRET"
  let ft_max_capital := getenv env "FT_MAX_CAPITAL"
  let remote_ip := getenv env "REMOTE_IP"
  if api_key == "" || api_secret == "" then .exited 1
  else if ft_max_capital == "" then .exited 1
  else if remote_ip == "" then .exited 1
  else
    match template with
    | none => .exited 1
    | some t =>
      let runtime := jq_inject t api_key api_secret
      if runtime.exchange_key == api_key && runtime.exchange_secret == api_secret then
        .running (script_runtime_path env) runtime
      else .exited 1

/-! ## Service lifecycle (`create_service`, `stop_service`, `get_service_logs`) -/

/-- Combined system state threaded through the lifecycle operations.
`local_ip` is the result of the `get_local_ip()` UDP probe. -/
structure SysState where
  docker : DockerState := {}
  db : DbState := {}
  fs : FsState := {}
  local_ip : String := "127.0.0.1"
deriving Repr, DecidableEq

/-- One orchestrator control-plane round trip.  `listNodes` summarises
the node listing and the per-node service/task enumeration performed by
`_find_best_node`. -/
inductive OrchCall where
  | listNodes
  | getService (name : String)
  | removeService (name : String)
  | submitService (name : String)
  | getLogs (name : String)
deriving Repr, DecidableEq

/-- The distinct return sites of `create_service`; the Python method
returns `(bool, str)` with a fixed message per site (the success message
interpolates the fields carried by `created`). -/
inductive CreateMsg where
  | notConnected
  | dirOrTemplateMissing
  | noAvailableNode
  | userNotFound
  | credentialsMissing
  | apiError
  | created (service_name hostname node_ip : String) (api_port : Nat)
deriving Repr, DecidableEq

structure CreateResult where
  ok : Bool
  msg : CreateMsg
  st : SysState
  trace : List OrchCall
deriving Repr, DecidableEq

/-- Embeds `SwarmManager._get_service_name`. -/
def get_service_name (uid : Nat) : String :=
  "freqtrade_" ++ toString uid

/-- Embeds `SwarmManager._ensure_user_directories` for the swarm-side user
directory: create the three sub-directories, pre-touch the sqlite file,
and require `config/config.json` to exist. -/
def ensure_user_directories (fs : FsState) (uid : Nat) : Bool × FsState :=
  let fs' := { fs with db_touched :=
    if fs.db_touched.contains uid then fs.db_touched else uid :: fs.db_touched }
  ((lookup_template fs.swarm_templates uid).isSome, fs')

/-- Step 9 of `create_service`: the environment list.  With an active
subscription it carries `FT_MAX_CAPITAL`; without one (the `未订阅`
branch) that variable is simply omitted. -/
def build_env_vars (api_key secret : String) (sub : Option SubscriptionRec)
    (local_ip : String) : List (String × String) :=
  match sub with
  | some s =>
    [("API_KEY", api_key), ("API_SECRET", secret),
     ("FT_MAX_CAPITAL", toString s.max_capital), ("REMOTE_IP", local_ip),
     ("CONFIG_TEMPLATE", "/freqtrade/custom_config/config.json"),
     ("CONFIG_RUNTIME", "/freqtrade/runtime_config.json")]
  | none =>
    [("API_KEY", api_key), ("API_SECRET", secret), ("REMOTE_IP", local_ip),
     ("CONFIG_TEMPLATE", "/freqtrade/custom_config/config.json"),
     ("CONFIG_RUNTIME", "/freqtrade/runtime_config.json")]

/-- Steps 5-11 of `create_service`: the submitted service spec.  The
config mount is the only read-only one; the port pair is
`TargetPort=8080`, `PublishedPort=get_user_api_port`; placement is
pinned with `node.id==<best>`. -/
def build_service_spec (uid : Nat) (env : List (String × String)) (api_port : Nat)
    (node : NodeLoad) (node_ip : String) : ServiceSpecRec :=
  { image := "freqtrade:latest",
    name := get_service_name uid,
    env := env,
    config_mount_target := "/freqtrade/custom_config",
    config_mount_read_only := true,
    logs_mount_read_only := false,
    db_mount_read_only := false,
    target_port := 8080,
    published_port := api_port,
    constraint_node_id := node.id,
    labels := [("app", "freqtrade"), ("user_id", toString uid),
               ("managed_by", "telegram_bot"), ("config_version", "v7_fixed"),
               ("api_port", toString api_port), ("node", node.hostname),
               ("node_ip", node_ip)] }

/-- Embeds `SwarmManager.create_service`, following the source's control flow:
client check; `_ensure_user_directories`; `_find_best_node`;
`_get_node_ip` with hostname fallback; idempotent removal of an existing
service of the same name (Python removes the service found by
`services.get`; since names are unique this equals filtering the name
out, and the `NotFound` pass leaves the list unchanged, which the
unconditional filter also does — only the trace records whether a
removal was issued); credential lookup and truthiness check; env/spec
construction; submission; and on success the two database writes and
the success tuple.  `docker.errors.APIError` from `services.create` is
the `create_fails` branch. -/
def create_service (st : SysState) (uid : Nat) : CreateResult :=
  if !st.docker.connected then ⟨false, .notConnected, st, []⟩ else
  let service_name := get_service_name uid
  let dirs := ensure_user_directories st.fs uid
  let st1 : SysState := { st with fs := dirs.2 }
  if !dirs.1 then ⟨false, .dirOrTemplateMissing, st1, []⟩ else
  match find_best_node st.docker with
  | none => ⟨false, .noAvailableNode, st1, [.listNodes]⟩
  | some best =>
    let node_ip := (get_node_ip st.docker best.id).getD best.hostname
    let existing := st.docker.services.any (fun s => s.name == service_name)
    let services1 := st.docker.services.filter (fun s => !(s.name == service_name))
    let docker1 := { st.docker with services := services1 }
    let tr1 : List OrchCall :=
      [.listNodes, .getService service_name] ++
        (if existing then [.removeService service_name] else [])
    let st2 : SysState := { st1 with docker := docker1 }
    match get_user_by_telegram_id st.db uid with
    | none => ⟨false, .userNotFound, st2, tr1⟩
    | some user =>
      let api_key := user.api_key.getD ""
      let secret := user.security.getD ""
      if api_key == "" || secret == "" then
        ⟨false, .credentialsMissing, st2, tr1⟩
      else
        let api_port := get_user_api_port uid
        let sub := get_user_subscription st.db uid
        let env := build_env_vars api_key secret sub st.local_ip
        let spec := build_service_spec uid env api_port best node_ip
        if st.docker.create_fails then
          ⟨false, .apiError, st2, tr1 ++ [.submitService service_name]⟩
        else
          let new_service : ServiceRec :=
            { name := service_name, labels := spec.labels, tasks := [],
              log_lines := [], spec := some spec }
          let docker2 := { docker1 with services := docker1.services ++ [new_service] }
          let db1 := update_service_info st.db uid "new" service_name node_ip api_port
          let db2 := update_user_status db1 uid "运行中"
          ⟨true, .created service_name best.hostname node_ip api_port,
            { st2 with docker := docker2, db := db2 },
            tr1 ++ [.submitService service_name]⟩

/-- The distinct return sites of `stop_service`. -/
inductive StopMsg where
  | notConnected
  | stopped
  | notFound
  | stopFailed
deriving Repr, DecidableEq

structure StopResult where
  ok : Bool
  msg : StopMsg
  st : SysState
deriving Repr, DecidableEq

/-- Embeds `SwarmManager.stop_service`: remove the named service if present and
clear the placement columns plus the status; on `NotFound` still clear
placement and status but return `(False, "服务不存在")`; any other
exception from `service.remove` (the `api_fault` injection) lands in
the generic `except` which clears nothing. -/
def stop_service (st : SysState) (uid : Nat) : StopResult :=
  if !st.docker.connected then ⟨false, .notConnected, st⟩ else
  let service_name := get_service_name uid
  if st.docker.services.any (fun s => s.name == service_name) then
    if st.docker.api_fault then ⟨false, .stopFailed, st⟩
    else
      let services1 := st.docker.services.filter (fun s => !(s.name == service_name))
      let docker1 := { st.docker with services := services1 }
      let db1 := update_user_status (clear_service_info st.db uid) uid "停止"
      ⟨true, .stopped, { st with docker := docker1, db := db1 }⟩
  else
    let db1 := update_user_status (clear_service_info st.db uid) uid "停止"
    ⟨false, .notFound, { st with db := db1 }⟩

/-- The docker `tail=n` semantics: the last `n` lines of the stream. -/
def tail_lines (l : List String) (n : Nat) : List String :=
  l.drop (l.length - n)

/-- The structured core of `get_service_logs`: the tailed line list when
the service exists, `none` when `services.get` raises `NotFound`. -/
def service_log_tail (st : SysState) (uid : Nat) (lines : Nat) : Option (List String) :=
  (st.docker.services.find? (fun s => s.name == get_service_name uid)).map
    (fun svc => tail_lines svc.log_lines lines)

/-- Embeds `SwarmManager.get_service_logs`: `service.logs(tail=lines,
timestamps=True)` decoded and joined; the requested line count is passed
to the orchestrator as-is, with no cap applied by this method.  Every
exception is turned into a string: `NotFound` into the sentinel
`"服务不存在"` and anything else (the `api_fault` injection) into the
generic failure text. -/
def get_service_logs (st : SysState) (uid : Nat) (lines : Nat) : String :=
  if !st.docker.connected then "Docker 未连接" else
  match service_log_tail st uid lines with
  | some tail => if st.docker.api_fault then "获取日志失败" else String.intercalate "\n" tail
  | none => "服务不存在"

/-! ## Concrete cluster and system states used by witnesses and
counterexamples -/

/-- Worker node W1 of the spec's example scenario (5/50 used). -/
def exNodeW1 : NodeRec := { id := "W1", hostname := "w1" }

/-- Worker node W2 of the spec's example scenario (50/50 used). -/
def exNodeW2 : NodeRec := { id := "W2", hostname := "w2" }

/-- Manager node M1 of the spec's example scenario (1/5 used, via the
`max_containers` label). -/
def exNodeM1 : NodeRec :=
  { id := "M1", hostname := "m1", role := "manager", max_label := some 5 }

def mk_running_tasks (nid : String) (n : Nat) : List TaskRec :=
  List.replicate n { node_id := nid }

/-- A freqtrade-labelled service whose running tasks give W1/W2/M1 the
example loads 5, 50 and 1. -/
def exLoadService : ServiceRec :=
  { name := "load", labels := [("app", "freqtrade")],
    tasks := mk_running_tasks "W1" 5 ++ mk_running_tasks "W2" 50 ++
             mk_running_tasks "M1" 1 }

/-- The example cluster of the spec (§8). -/
def exDocker : DockerState :=
  { nodes := [exNodeW1, exNodeW2, exNodeM1], services := [exLoadService] }

/-- A healthy full system state in which `create_service 7` succeeds:
room on W1, a registered user with bound credentials and an active
subscription, and the swarm-side config template in place. -/
def stOK : SysState :=
  { docker := exDocker,
    db := { users := [{ user_id := 7, api_key := some "K1234567ABCD",
                        security := some "SECRET", node_ip := some "10.0.0.9" }],
            subscriptions := [{ user_id := 7, max_capital := 500 }] },
    fs := { swarm_templates := [(7, { exchange_key := "PLACEHOLDER_API_KEY",
                                      exchange_secret := "PLACEHOLDER_SECRET" })] } }

/-- A system state with one running service for user 2 whose placement
record still carries a node address. -/
def stWithService : SysState :=
  { docker := { services := [{ name := "freqtrade_2" }] },
    db := { users := [{ user_id := 2, service_id := some "sid-old",
                        service_name := some "freqtrade_2",
                        node_ip := some "10.0.0.2", status := "运行中" }] } }

/-- A cluster with two equally-loaded, equally-prioritised workers whose
listing order is the reverse of their id order. -/
def dTie : DockerState :=
  { nodes := [{ id := "node-b", hostname := "hb" }, { id := "node-a", hostname := "ha" }] }

/-- A cluster whose single node has a `max_containers` label of 1000 and
a failing task enumeration. -/
def dC7 : DockerState :=
  { nodes := [{ id := "N1", hostname := "n1", max_label := some 1000 }],
    enum_fails_for := ["N1"] }

/-- A user with a pre-existing service but no stored credentials. -/
def stC6 : SysState :=
  { docker := { nodes := [exNodeW1], services := [{ name := "freqtrade_5" }] },
    db := { users := [{ user_id := 5 }] },
    fs := { swarm_templates := [(5, {})] } }

/-- A single full node: W2 carries exactly its ceiling of 50 running
tasks. -/
def stFull : SysState :=
  { docker := { nodes := [exNodeW2], services := [exLoadService] },
    db := stOK.db,
    fs := { swarm_templates := [(7, {})] } }

/-- A user with bound credentials and a live cluster but no active
subscription row. -/
def stNoSub : SysState :=
  { docker := { nodes := [exNodeW1] },
    db := { users := [{ user_id := 5, api_key := some "KEY", security := some "SEC" }] },
    fs := { swarm_templates := [(5, {})] } }

/-- A service for user 4 with 150 stored log lines. -/
def stC9 : SysState :=
  { docker := { services := [{ name := "freqtrade_4",
                               log_lines := List.replicate 150 "line" }] } }

/-! ## Refinement definition for the spec's node ranking -/

/-- Lexicographic order on char lists by code point, used for the
spec-side id tiebreak. -/
def chars_lt : List Char → List Char → Bool
  | [], [] => false
  | [], _ :: _ => true
  | _ :: _, [] => false
  | c :: cs, d :: ds =>
    c.val.toNat < d.val.toNat || (c.val.toNat == d.val.toNat && chars_lt cs ds)

/-- Dictionary order on strings, by code point. -/
def str_lt (a b : String) : Bool :=
  chars_lt a.data b.data

/-- Written from the spec's words for the ranking of C5 (not from the
source): composite key (worker-first priority, current count ascending)
with ties broken by node id. -/
def spec_rank_lt (a b : NodeLoad) : Bool :=
  a.priority < b.priority ||
    (a.priority == b.priority &&
      (a.current < b.current || (a.current == b.current && str_lt a.id b.id)))

/-- The candidate ranked first by `spec_rank_lt` (the spec's claimed
selection, with the id tiebreak). -/
def spec_best_node (d : DockerState) : Option NodeLoad :=
  match candidate_nodes d with
  | [] => none
  | x :: xs => some (xs.foldl (fun acc y => if spec_rank_lt y acc then y else acc) x)

/-- The load entry both selectors compute for node-b of `dTie`. -/
def tieLoadB : NodeLoad :=
  { id := "node-b", hostname := "hb", role := "worker", current := 0, max := 50,
    available := 50, priority := 1 }

/-- The load entry computed for W1 in `stC6` (no labelled services, so
count 0). -/
def stC6Load : NodeLoad :=
  { id := "W1", hostname := "w1", role := "worker", current := 0, max := 50,
    available := 50, priority := 1 }

/-- The load entry computed for the ceiling-1000 node of `dC7` under its
failing enumeration. -/
def loadN1 : NodeLoad :=
  { id := "N1", hostname := "n1", role := "worker", current := 999, max := 1000,
    available := 1, priority := 1 }

/-! ## Helper lemmas -/

theorem any_name_filter_false (l : List ServiceRec) (nm : String) :
    (l.filter (fun s => !(s.name == nm))).any (fun s => s.name == nm) = false := by
  induction l with
  | nil => rfl
  | cons x xs ih =>
    by_cases h : x.name == nm
    · simp [List.filter, h, ih]
    · simp [List.filter, h, ih]

/-- When the docker client is connected and `service.remove` does not
raise, both branches of `stop_service` leave the same database:
placement columns cleared and status set to `停止`. -/
theorem stop_service_db (st : SysState) (uid : Nat)
    (hconn : st.docker.connected = true) (hfault : st.docker.api_fault = false) :
    (stop_service st uid).st.db =
      update_user_status (clear_service_info st.db uid) uid "停止" := by
  unfold stop_service
  simp only [hconn, hfault]
  by_cases h : st.docker.services.any (fun s => s.name == get_service_name uid) <;>
    simp [h]

/-- After `stop_service` the named service is gone from the orchestrator
(and it was never there in the not-found branch). -/
theorem stop_service_removes (st : SysState) (uid : Nat)
    (hconn : st.docker.connected = true) (hfault : st.docker.api_fault = false) :
    (stop_service st uid).st.docker.services.any
      (fun s => s.name == get_service_name uid) = false := by
  unfold stop_service
  simp only [hconn, hfault]
  by_cases h : st.docker.services.any (fun s => s.name == get_service_name uid) <;>
    simp [h, any_name_filter_false]

/-- `stop_service` only touches the service list and the database; the
connection and fault-injection flags survive. -/
theorem stop_service_flags (st : SysState) (uid : Nat) :
    (stop_service st uid).st.docker.connected = st.docker.connected ∧
    (stop_service st uid).st.docker.api_fault = st.docker.api_fault := by
  unfold stop_service
  by_cases hc : st.docker.connected
  · by_cases h : st.docker.services.any (fun s => s.name == get_service_name uid) <;>
      by_cases hf : st.docker.api_fault <;> simp [hc, h, hf]
  · simp [hc]

/-- The user row transform performed by clearing followed by the status
update. -/
theorem cleared_user_mem (db : DbState) (uid : Nat) (u0 : UserRec)
    (hmem : u0 ∈ db.users) (hid : u0.user_id = uid) :
    { u0 with service_id := none, service_name := none, status := "停止" } ∈
      (update_user_status (clear_service_info db uid) uid "停止").users := by
  unfold update_user_status clear_service_info
  simp only [List.map_map]
  refine List.mem_map.mpr ⟨u0, hmem, ?_⟩
  simp [Function.comp, hid]

/-- On every branch of `create_service` — success, capacity exhaustion,
missing credentials, missing user, missing template, API error or a
disconnected client — none of the on-disk config files is written: only
`db_touched` can change.  In particular no credential is ever written to
a host-side template. -/
theorem create_service_preserves_templates (st : SysState) (uid : Nat) :
    (create_service st uid).st.fs.swarm_templates = st.fs.swarm_templates ∧
    (create_service st uid).st.fs.manager_templates = st.fs.manager_templates ∧
    (create_service st uid).st.fs.work_template = st.fs.work_template := by
  unfold create_service ensure_user_directories
  repeat'
    first
    | rfl
    | split
    | simp_all

/-- Every failing branch of `create_service` leaves the database
untouched: in particular the idempotent removal of a pre-existing
service never clears the placement record. -/
theorem create_service_fail_db (st : SysState) (uid : Nat)
    (h : (create_service st uid).ok = false) :
    (create_service st uid).st.db = st.db := by
  unfold create_service at *
  repeat'
    first
    | rfl
    | split at h
    | simp_all

/-- The success message of `create_service` always carries the service
name `freqtrade_<uid>` and the deterministic port
`get_user_api_port uid`. -/
theorem create_service_created_port (st : SysState) (uid : Nat)
    (nm hn ip : String) (p : Nat)
    (h : (create_service st uid).msg = .created nm hn ip p) :
    nm = get_service_name uid ∧ p = get_user_api_port uid := by
  unfold create_service at h
  repeat'
    first
    | rfl
    | split at h
    | simp_all

/-- When the client is connected and the named service is absent,
`stop_service` takes the `NotFound` branch: it still clears placement
and status but reports `(False, 服务不存在)`. -/
theorem stop_service_not_found (st : SysState) (uid : Nat)
    (hconn : st.docker.connected = true)
    (hany : st.docker.services.any (fun s => s.name == get_service_name uid) = false) :
    stop_service st uid =
      ⟨false, .notFound,
        { st with db := update_user_status (clear_service_info st.db uid) uid "停止" }⟩ := by
  unfold stop_service
  simp [hconn, hany]

/-- Every row of the database produced by clear-then-stop whose user id
matches has null placement columns and the stopped status. -/
theorem cleared_db_fields (db : DbState) (uid : Nat) :
    ∀ u ∈ (update_user_status (clear_service_info db uid) uid "停止").users,
      u.user_id = uid → u.service_id = none ∧ u.service_name = none ∧ u.status = "停止" := by
  intro u hu hid
  unfold update_user_status clear_service_info at hu
  simp only [List.map_map, List.mem_map] at hu
  obtain ⟨u0, hu0, rfl⟩ := hu
  by_cases h : u0.user_id == uid <;> simp_all [Function.comp]

/-- Tails of the docker `tail=n` form return `min n (length)` lines. -/
theorem tail_lines_length (l : List String) (n : Nat) :
    (tail_lines l n).length = min n l.length := by
  simp only [tail_lines, List.length_drop]
  omega

/-- Looking up a name in a list from which that name has been filtered
out and a fresh record appended finds exactly the appended record. -/
theorem find_filtered_append (l : List ServiceRec) (nm : String) (svc : ServiceRec) :
    ((l.filter (fun s => !(s.name == nm))) ++ [svc]).find? (fun s => s.name == nm) =
      [svc].find? (fun s => s.name == nm) := by
  induction l with
  | nil => rfl
  | cons x xs ih =>
    by_cases h : x.name == nm <;> simp [List.filter, h, ih, List.find?_cons]

/-- A user lookup commutes with a row transform that preserves the
`user_id` column. -/
theorem find_user_map (l : List UserRec) (f : UserRec → UserRec)
    (hpres : ∀ u, (f u).user_id = u.user_id) (uid : Nat) (user : UserRec)
    (h : l.find? (fun u => u.user_id == uid) = some user) :
    (l.map f).find? (fun u => u.user_id == uid) = some (f user) := by
  induction l with
  | nil => simp at h
  | cons x xs ih =>
    by_cases hx : (x.user_id == uid) = true
    · rw [List.find?_cons_of_pos (p := fun (u : UserRec) => u.user_id == uid) _ hx] at h
      cases h
      exact List.find?_cons_of_pos (p := fun (u : UserRec) => u.user_id == uid) _
        (by simpa [hpres] using hx)
    · rw [List.find?_cons_of_neg (p := fun (u : UserRec) => u.user_id == uid) _ hx] at h
      rw [List.map_cons,
        List.find?_cons_of_neg (p := fun (u : UserRec) => u.user_id == uid) _ (by simpa [hpres] using hx),
        ih h]

/-- Setting the status of a found user is observable through the user
lookup. -/
theorem get_user_after_status (db : DbState) (uid : Nat) (user : UserRec) (s : String)
    (h : get_user_by_telegram_id db uid = some user) :
    get_user_by_telegram_id (update_user_status db uid s) uid =
      some { user with status := s } := by
  unfold get_user_by_telegram_id at h
  unfold get_user_by_telegram_id update_user_status
  have hid : (user.user_id == uid) = true := by
    have t := List.find?_some h
    exact t
  have hm := find_user_map db.users
    (fun u => if u.user_id == uid then { u with status := s } else u)
    (fun u => by by_cases hu : (u.user_id == uid) = true <;> simp [hu]) uid user h
  simpa [hid] using hm

/-- The composite sort key as a proposition. -/
theorem node_key_lt_eq (a b : NodeLoad) :
    node_key_lt a b = true ↔
      (a.priority < b.priority ∨ (a.priority = b.priority ∧ a.current < b.current)) := by
  simp [node_key_lt]

theorem node_key_lt_irrefl (a : NodeLoad) : node_key_lt a a = false := by
  simp [node_key_lt]

theorem node_key_lt_asymm (a b : NodeLoad) (h : node_key_lt a b = true) :
    node_key_lt b a = false := by
  cases hba : node_key_lt b a with
  | false => rfl
  | true =>
    exfalso
    have h1 := (node_key_lt_eq a b).mp h
    have h2 := (node_key_lt_eq b a).mp hba
    rcases h1 with h1 | ⟨e1, l1⟩ <;> rcases h2 with h2 | ⟨e2, l2⟩ <;> omega

theorem node_key_le_trans (x c a : NodeLoad)
    (h1 : node_key_lt x c = false) (h2 : node_key_lt c a = false) :
    node_key_lt x a = false := by
  cases hxa : node_key_lt x a with
  | false => rfl
  | true =>
    exfalso
    have n1 := (node_key_lt_eq x c).not.mp (by simp [h1])
    have n2 := (node_key_lt_eq c a).not.mp (by simp [h2])
    have p3 := (node_key_lt_eq x a).mp hxa
    push_neg at n1 n2
    rcases p3 with p3 | ⟨e3, l3⟩ <;> omega

theorem sort_ins_ne_nil (x : NodeLoad) (l : List NodeLoad) : sort_ins x l ≠ [] := by
  cases l with
  | nil => simp [sort_ins]
  | cons y ys => unfold sort_ins; split <;> simp

/-- The head of the stable insertion sort is a key-minimal element of
the input: no input element is ranked strictly before it. -/
theorem sort_nodes_head_min (l : List NodeLoad) (b : NodeLoad)
    (hb : (sort_nodes l).head? = some b) :
    b ∈ l ∧ ∀ x ∈ l, node_key_lt x b = false := by
  induction l generalizing b with
  | nil => simp [sort_nodes] at hb
  | cons a xs ih =>
    rw [sort_nodes] at hb
    cases hs : sort_nodes xs with
    | nil =>
      rw [hs] at hb
      simp [sort_ins] at hb
      subst hb
      have hxs : xs = [] := by
        cases xs with
        | nil => rfl
        | cons c cs => exact absurd hs (by rw [sort_nodes]; exact sort_ins_ne_nil c (sort_nodes cs))
      subst hxs
      refine ⟨by simp, ?_⟩
      intro x hx
      simp at hx
      rw [hx]
      exact node_key_lt_irrefl a
    | cons c cs =>
      rw [hs] at hb
      have hc := ih c (by rw [hs]; rfl)
      unfold sort_ins at hb
      by_cases hca : node_key_lt c a = true
      · rw [if_pos hca] at hb
        simp at hb
        subst hb
        refine ⟨List.mem_cons_of_mem _ hc.1, ?_⟩
        intro x hx
        rcases List.mem_cons.mp hx with he | hx'
        · rw [he]; exact node_key_lt_asymm c a hca
        · exact hc.2 x hx'
      · rw [if_neg hca] at hb
        simp at hb
        subst hb
        rw [Bool.not_eq_true] at hca
        refine ⟨List.mem_cons_self a xs, ?_⟩
        intro x hx
        rcases List.mem_cons.mp hx with he | hx'
        · rw [he]; exact node_key_lt_irrefl a
        · exact node_key_le_trans x c a (hc.2 x hx') hca

/-- The node `_find_best_node` returns is a candidate and no candidate
is ranked strictly before it by the composite key. -/
theorem find_best_node_min (d : DockerState) (b : NodeLoad)
    (h : find_best_node d = some b) :
    b ∈ candidate_nodes d ∧ ∀ x ∈ candidate_nodes d, node_key_lt x b = false := by
  unfold find_best_node at h
  exact sort_nodes_head_min (candidate_nodes d) b h

/-! ## Claim theorems -/

set_option maxRecDepth 8000 in
/-- C1 (credential non-leakage): `create_service` never writes any
on-disk config template, on success or on any failure branch;
`create_user_config` stores only the placeholder credential fields no
matter what real credentials it is given; the real credentials travel in
the runtime environment (`API_KEY`/`API_SECRET` entries); and the merged
runtime config path produced by the startup script is the container-local
`/freqtrade/runtime_config.json`, outside the config mount, which is
mounted read-only at `/freqtrade/custom_config`. -/
theorem claim1_credential_non_leakage :
    (∀ st uid,
      (create_service st uid).st.fs.swarm_templates = st.fs.swarm_templates ∧
      (create_service st uid).st.fs.manager_templates = st.fs.manager_templates ∧
      (create_service st uid).st.fs.work_template = st.fs.work_template) ∧
    (∀ fs uid k s, (create_user_config fs uid k s).1 = true →
      ∃ t, lookup_template (create_user_config fs uid k s).2.manager_templates uid = some t ∧
        t.exchange_key = "PLACEHOLDER_API_KEY" ∧ t.exchange_secret = "PLACEHOLDER_SECRET") ∧
    (∀ k s sub lip,
      getenv (build_env_vars k s sub lip) "API_KEY" = k ∧
      getenv (build_env_vars k s sub lip) "API_SECRET" = s ∧
      script_runtime_path (build_env_vars k s sub lip) = "/freqtrade/runtime_config.json" ∧
      under_config_mount (script_runtime_path (build_env_vars k s sub lip)) = false) ∧
    (∀ uid env p node nip,
      (build_service_spec uid env p node nip).config_mount_read_only = true ∧
      (build_service_spec uid env p node nip).config_mount_target =
        "/freqtrade/custom_config") := by
  refine ⟨create_service_preserves_templates, ?_, ?_, ?_⟩
  · intro fs uid k s h
    unfold create_user_config at h ⊢
    cases hw : fs.work_template with
    | none => simp [hw] at h
    | some tmpl =>
      refine ⟨secure_template tmpl uid, ?_, rfl, rfl⟩
      have hl : lookup_template
          (upsert_template fs.manager_templates uid (secure_template tmpl uid)) uid =
          some (secure_template tmpl uid) := by
        unfold lookup_template upsert_template
        rw [List.find?_cons_of_pos (p := fun (q : Nat × ConfigJson) => q.1 == uid) _ (by simp)]
        rfl
      exact hl
  · intro k s sub lip
    have h3 : script_runtime_path (build_env_vars k s sub lip) =
        "/freqtrade/runtime_config.json" := by cases sub <;> rfl
    refine ⟨?_, ?_, h3, ?_⟩
    · cases sub <;> rfl
    · cases sub <;> rfl
    · rw [h3]; decide
  · intro uid env p node nip
    exact ⟨rfl, rfl⟩

/-- Witness for C1: a concrete `create_user_config` call given real
credentials still stores the placeholders. -/
theorem claim1_credential_non_leakage_witness :
    (create_user_config { work_template := some {} } 3 (some "REALKEY") (some "REALSEC")).1
      = true ∧
    ∃ t, lookup_template
        (create_user_config { work_template := some {} } 3
          (some "REALKEY") (some "REALSEC")).2.manager_templates 3 = some t ∧
      t.exchange_key = "PLACEHOLDER_API_KEY" ∧ t.exchange_secret = "PLACEHOLDER_SECRET" :=
  ⟨rfl, claim1_credential_non_leakage.2.1 { work_template := some {} } 3
    (some "REALKEY") (some "REALSEC") rfl⟩

/-- C4 (capacity respected): when every considered node reports a
current count equal to its ceiling, `create_service` fails with the
no-available-node (capacity exhausted) outcome, its trace consists of
the node-listing round trip only — in particular no submit call — and
both the orchestrator state and the database (hence the Placement
record) are left unchanged. -/
theorem claim4_capacity_respected (st : SysState) (uid : Nat)
    (hconn : st.docker.connected = true)
    (htmpl : (lookup_template st.fs.swarm_templates uid).isSome = true)
    (hfull : ∀ n ∈ considered_nodes st.docker,
      (get_node_container_count st.docker n.id : Int) = get_node_max_containers n) :
    (create_service st uid).ok = false ∧
    (create_service st uid).msg = CreateMsg.noAvailableNode ∧
    (create_service st uid).trace = [OrchCall.listNodes] ∧
    (∀ nm, OrchCall.submitService nm ∉ (create_service st uid).trace) ∧
    (create_service st uid).st.docker = st.docker ∧
    (create_service st uid).st.db = st.db := by
  have hcand : candidate_nodes st.docker = [] := by
    unfold candidate_nodes
    refine List.filterMap_eq_nil_iff.mpr ?_
    intro n hn
    have hn' : n ∈ considered_nodes st.docker := (List.mem_filter.mp hn).1
    have h0 : get_node_max_containers n -
        (get_node_container_count st.docker n.id : Int) = 0 := by
      rw [← hfull n hn']
      omega
    simp [h0]
  have hfind : find_best_node st.docker = none := by
    unfold find_best_node
    rw [hcand]
    rfl
  unfold create_service ensure_user_directories
  simp [hconn, htmpl, hfind]

/-- Witness for C4: a cluster with a single full worker (50/50). -/
theorem claim4_capacity_respected_witness :
    (create_service stFull 7).ok = false ∧
    (create_service stFull 7).msg = CreateMsg.noAvailableNode ∧
    (create_service stFull 7).trace = [OrchCall.listNodes] ∧
    (∀ nm, OrchCall.submitService nm ∉ (create_service stFull 7).trace) ∧
    (create_service stFull 7).st.docker = stFull.docker ∧
    (create_service stFull 7).st.db = stFull.db :=
  claim4_capacity_respected stFull 7 rfl rfl (by decide)

/-- C8 (deterministic published port): any two successful create calls
for the same user — whatever the intervening stops or other state
changes — publish the identical port `8080 + uid % 1000`; for user
12345 that is 8425. -/
theorem claim8_deterministic_port (s1 s2 : SysState) (uid : Nat)
    (n1 h1 i1 : String) (p1 : Nat) (n2 h2 i2 : String) (p2 : Nat)
    (hc1 : (create_service s1 uid).msg = CreateMsg.created n1 h1 i1 p1)
    (hc2 : (create_service s2 uid).msg = CreateMsg.created n2 h2 i2 p2) :
    p1 = 8080 + uid % 1000 ∧ p2 = p1 ∧ get_user_api_port 12345 = 8425 := by
  have a1 := create_service_created_port s1 uid n1 h1 i1 p1 hc1
  have a2 := create_service_created_port s2 uid n2 h2 i2 p2 hc2
  refine ⟨a1.2, ?_, rfl⟩
  rw [a1.2, a2.2]

/-- Witness for C8: the same user creating on `stOK`, where the call
succeeds, gets port 8087 = 8080 + 7 both times. -/
theorem claim8_deterministic_port_witness :
    (create_service stOK 7).msg = CreateMsg.created "freqtrade_7" "w1" "w1" 8087 ∧
    (8087 = 8080 + 7 % 1000 ∧ 8087 = 8087 ∧ get_user_api_port 12345 = 8425) :=
  ⟨by decide,
   claim8_deterministic_port stOK stOK 7 "freqtrade_7" "w1" "w1" 8087
     "freqtrade_7" "w1" "w1" 8087 (by decide) (by decide)⟩

/-- Counterexample to C2 as stated: after a first successful stop, the
second stop hits the `NotFound` branch and returns the failure pair
`(False, 服务不存在)` — it does not raise, but it is a failure result,
not success-with-warning. -/
theorem claim2_counterexample :
    (stop_service stWithService 2).ok = true ∧
    (stop_service (stop_service stWithService 2).st 2).ok = false ∧
    (stop_service (stop_service stWithService 2).st 2).msg = StopMsg.notFound := by
  decide

/-- C2 (amended): calling stop twice in a row never raises (the embedded
operation is total because every exception is caught); the second call
returns the not-found outcome with `ok = false` rather than
success-with-warning; and both calls leave the placement columns
(`service_id`/`service_name`) cleared and the status stopped. -/
theorem claim2_amended_idempotent_stop (st : SysState) (uid : Nat)
    (hconn : st.docker.connected = true) (hfault : st.docker.api_fault = false) :
    (stop_service (stop_service st uid).st uid).ok = false ∧
    (stop_service (stop_service st uid).st uid).msg = StopMsg.notFound ∧
    (∀ u ∈ (stop_service st uid).st.db.users, u.user_id = uid →
      u.service_id = none ∧ u.service_name = none ∧ u.status = "停止") ∧
    (∀ u ∈ (stop_service (stop_service st uid).st uid).st.db.users, u.user_id = uid →
      u.service_id = none ∧ u.service_name = none ∧ u.status = "停止") := by
  have hflags := stop_service_flags st uid
  have hconn1 : (stop_service st uid).st.docker.connected = true := by
    rw [hflags.1, hconn]
  have hfault1 : (stop_service st uid).st.docker.api_fault = false := by
    rw [hflags.2, hfault]
  have hany1 := stop_service_removes st uid hconn hfault
  have hsecond := stop_service_not_found (stop_service st uid).st uid hconn1 hany1
  refine ⟨by rw [hsecond], by rw [hsecond], ?_, ?_⟩
  · rw [stop_service_db st uid hconn hfault]
    exact cleared_db_fields st.db uid
  · rw [hsecond]
    exact cleared_db_fields (stop_service st uid).st.db uid

/-- Witness for C2 (amended) at the concrete one-service state. -/
theorem claim2_amended_idempotent_stop_witness :
    (stop_service (stop_service stWithService 2).st 2).ok = false ∧
    (stop_service (stop_service stWithService 2).st 2).msg = StopMsg.notFound ∧
    (∀ u ∈ (stop_service stWithService 2).st.db.users, u.user_id = 2 →
      u.service_id = none ∧ u.service_name = none ∧ u.status = "停止") ∧
    (∀ u ∈ (stop_service (stop_service stWithService 2).st 2).st.db.users, u.user_id = 2 →
      u.service_id = none ∧ u.service_name = none ∧ u.status = "停止") :=
  claim2_amended_idempotent_stop stWithService 2 rfl rfl

/-- Counterexample to C3 as stated: stopping user 2's running service
removes the service and nulls `service_id`, but the `node_ip` column
keeps its old value `10.0.0.2` instead of being set to null
(`clear_service_info` only nulls `service_id` and `service_name`). -/
theorem claim3_counterexample :
    (stop_service stWithService 2).ok = true ∧
    (stop_service stWithService 2).st.docker.services = [] ∧
    ((get_user_by_telegram_id (stop_service stWithService 2).st.db 2).map
      (fun u => (u.node_ip, u.service_id, u.service_name, u.status))) =
      some (some "10.0.0.2", none, none, "停止") := by
  decide

/-- C3 (amended): on stop — service found or not — the user's row gets
`service_id`/`service_name` nulled and status `停止`, while `node_ip`
and `api_port` keep their previous values; and `create_service`'s
idempotent removal of a pre-existing service clears nothing: every
failing create leaves the database exactly as it was. -/
theorem claim3_amended_placement_clearing (st : SysState) (uid : Nat) (u0 : UserRec)
    (hconn : st.docker.connected = true) (hfault : st.docker.api_fault = false)
    (hmem : u0 ∈ st.db.users) (hid : u0.user_id = uid) :
    ({ u0 with service_id := none, service_name := none, status := "停止" } ∈
      (stop_service st uid).st.db.users) ∧
    (∀ s2 uid2, (create_service s2 uid2).ok = false →
      (create_service s2 uid2).st.db = s2.db) := by
  refine ⟨?_, fun s2 uid2 h => create_service_fail_db s2 uid2 h⟩
  rw [stop_service_db st uid hconn hfault]
  exact cleared_user_mem st.db uid u0 hmem hid

/-- Witness for C3 (amended): the concrete user row of `stWithService`
after a stop, and a concrete failing create (`stC6`, credentials
missing after a removal) whose database is untouched. -/
theorem claim3_amended_placement_clearing_witness :
    ({ user_id := 2, service_id := none, service_name := none,
       node_ip := some "10.0.0.2", status := "停止" : UserRec } ∈
      (stop_service stWithService 2).st.db.users) ∧
    (∀ s2 uid2, (create_service s2 uid2).ok = false →
      (create_service s2 uid2).st.db = s2.db) :=
  claim3_amended_placement_clearing stWithService 2
    { user_id := 2, service_id := some "sid-old", service_name := some "freqtrade_2",
      node_ip := some "10.0.0.2", status := "运行中" }
    rfl rfl (by decide) rfl

/-- Counterexample to C5 as stated: with two equally-prioritised,
equally-loaded workers listed as [node-b, node-a], the selector returns
node-b (Python's stable sort keeps listing order on ties) while the
claimed id tiebreak would return node-a. -/
theorem claim5_counterexample :
    ((find_best_node dTie).map NodeLoad.id = some "node-b") ∧
    ((spec_best_node dTie).map NodeLoad.id = some "node-a") ∧
    ((find_best_node dTie).map NodeLoad.id ≠ (spec_best_node dTie).map NodeLoad.id) := by
  decide

/-- C5 (amended): the selector returns a candidate that no other
candidate strictly precedes under the composite key (worker priority,
then current count); ties are broken by the order in which the
orchestrator lists the nodes, not by node id; and on the example cluster
{W1 5/50 worker, W2 50/50 worker, M1 1/5 manager} it returns W1 for
every listing order. -/
theorem claim5_amended_ranking :
    (∀ d b, find_best_node d = some b →
      b ∈ candidate_nodes d ∧ ∀ x ∈ candidate_nodes d, node_key_lt x b = false) ∧
    (∀ ns ∈ [[exNodeW1, exNodeW2, exNodeM1], [exNodeW1, exNodeM1, exNodeW2],
             [exNodeW2, exNodeW1, exNodeM1], [exNodeW2, exNodeM1, exNodeW1],
             [exNodeM1, exNodeW1, exNodeW2], [exNodeM1, exNodeW2, exNodeW1]],
      (find_best_node { nodes := ns, services := [exLoadService] }).map NodeLoad.id =
        some "W1") ∧
    ((find_best_node dTie).map NodeLoad.id = some "node-b") := by
  refine ⟨find_best_node_min, ?_, by decide⟩
  decide

/-- Witness for C5 (amended): the tie state's winner is a key-minimal
candidate, and the example cluster in its natural order picks W1. -/
theorem claim5_amended_ranking_witness :
    (tieLoadB ∈ candidate_nodes dTie ∧
     ∀ x ∈ candidate_nodes dTie, node_key_lt x tieLoadB = false) ∧
    (find_best_node { nodes := [exNodeW1, exNodeW2, exNodeM1], services := [exLoadService] }).map NodeLoad.id = some "W1" :=
  ⟨claim5_amended_ranking.1 dTie tieLoadB (by decide),
   claim5_amended_ranking.2.1 [exNodeW1, exNodeW2, exNodeM1] (by decide)⟩

/-- Counterexample to C6 as stated: user 5 has no stored credentials,
yet `create_service` performs the node listing and even removes the
pre-existing service before it reports the missing credentials — the
check does not short-circuit before orchestrator calls. -/
theorem claim6_counterexample :
    (create_service stC6 5).ok = false ∧
    (create_service stC6 5).msg = CreateMsg.credentialsMissing ∧
    OrchCall.listNodes ∈ (create_service stC6 5).trace ∧
    OrchCall.removeService "freqtrade_5" ∈ (create_service stC6 5).trace := by
  decide

/-- C6 (amended): for a user with missing or empty credentials (and a
selectable node), `create_service` fails with the credentials-missing
outcome and never submits a service — but only after the node listing
(and any idempotent removal) has already been issued. -/
theorem claim6_amended_credentials_check_late (st : SysState) (uid : Nat)
    (user : UserRec) (b : NodeLoad)
    (hconn : st.docker.connected = true)
    (htmpl : (lookup_template st.fs.swarm_templates uid).isSome = true)
    (hbest : find_best_node st.docker = some b)
    (huser : get_user_by_telegram_id st.db uid = some user)
    (hmiss : user.api_key.getD "" = "" ∨ user.security.getD "" = "") :
    (create_service st uid).ok = false ∧
    (create_service st uid).msg = CreateMsg.credentialsMissing ∧
    OrchCall.listNodes ∈ (create_service st uid).trace ∧
    (∀ nm, OrchCall.submitService nm ∉ (create_service st uid).trace) := by
  have hcred : (user.api_key.getD "" == "" || user.security.getD "" == "") = true := by
    rcases hmiss with h | h <;> simp [h]
  unfold create_service ensure_user_directories
  simp only [hconn, htmpl, hbest, huser, hcred, Bool.not_true, Bool.not_false,
    if_false, if_true, Bool.false_eq_true, Bool.true_eq_false]
  by_cases hex : st.docker.services.any
      (fun s => s.name == get_service_name uid) = true <;>
    simp [hex]

/-- Witness for C6 (amended): the concrete credentials-missing state. -/
theorem claim6_amended_credentials_check_late_witness :
    (create_service stC6 5).ok = false ∧
    (create_service stC6 5).msg = CreateMsg.credentialsMissing ∧
    OrchCall.listNodes ∈ (create_service stC6 5).trace ∧
    (∀ nm, OrchCall.submitService nm ∉ (create_service stC6 5).trace) :=
  claim6_amended_credentials_check_late stC6 5 { user_id := 5 } stC6Load
    rfl rfl (by decide) (by decide) (Or.inl rfl)

/-- Counterexample to C7 as stated: a node with ceiling 1000 whose
enumeration fails is reported at count 999, leaving available capacity
1 > 0, so the node stays in the candidate set and is even selected —
the fail-safe claim does not hold for ceilings above 999. -/
theorem claim7_counterexample :
    ((candidate_nodes dC7).map (fun l => (l.id, l.current, l.available)) =
      [("N1", 999, 1)]) ∧
    (find_best_node dC7).map NodeLoad.id = some "N1" := by
  decide

/-- C7 (amended): a failed enumeration reports the magic count 999, so a
node whose ceiling is at most 999 (in particular the role defaults 50
and 30) is excluded; contrapositively, any candidate that survives a
failed enumeration carries current = 999 and a ceiling of at least
1000. -/
theorem claim7_amended_fail_safe (d : DockerState) (load : NodeLoad)
    (hmem : load ∈ candidate_nodes d)
    (hfail : d.enum_fails_for.contains load.id = true) :
    load.current = 999 ∧ 1000 ≤ load.max := by
  unfold candidate_nodes at hmem
  obtain ⟨n, hn, heq⟩ := List.mem_filterMap.mp hmem
  dsimp only at heq
  split at heq
  · rename_i hpos
    injection heq with heq2
    subst heq2
    have hfail' : d.enum_fails_for.contains n.id = true := hfail
    have hcount : get_node_container_count d n.id = 999 := by
      unfold get_node_container_count
      rw [if_pos hfail']
    refine ⟨hcount, ?_⟩
    rw [hcount] at hpos
    show (1000 : Int) ≤ get_node_max_containers n
    omega
  · cases heq

/-- Witness for C7 (amended) at the labelled-1000 node. -/
theorem claim7_amended_fail_safe_witness :
    loadN1.current = 999 ∧ (1000 : Int) ≤ loadN1.max :=
  claim7_amended_fail_safe dC7 loadN1 (by decide) (by decide)

set_option maxRecDepth 8000 in
/-- Counterexample to C9 as stated: `get_service_logs` applies no cap to
the requested line count — a request for 150 lines returns 150 lines,
above the 100-line hard maximum that exists only in the bot command
handler (`view_logs` caps with `min(lines, 100)` before calling). -/
theorem claim9_counterexample :
    ((service_log_tail stC9 4 150).map List.length) = some 150 ∧ 100 < 150 := by
  refine ⟨?_, by decide⟩
  decide

/-- C9 (amended): `get_service_logs` tails exactly
`min lineCount stored` lines — the requested count is passed through
uncapped (the 100-line cap lives in the bot layer) — and returns the
sentinel `服务不存在` instead of raising when the service does not
exist; the embedded operation is total, so no exception escapes. -/
theorem claim9_amended_logs (st : SysState) (uid : Nat) (n : Nat)
    (hconn : st.docker.connected = true) (hfault : st.docker.api_fault = false) :
    (service_log_tail st uid n = none → get_service_logs st uid n = "服务不存在") ∧
    (∀ svc, st.docker.services.find? (fun s => s.name == get_service_name uid) = some svc →
      service_log_tail st uid n = some (tail_lines svc.log_lines n) ∧
      (tail_lines svc.log_lines n).length = min n svc.log_lines.length ∧
      get_service_logs st uid n =
        String.intercalate "\n" (tail_lines svc.log_lines n)) := by
  constructor
  · intro hnone
    unfold get_service_logs
    rw [hnone]
    simp [hconn]
  · intro svc hsvc
    have htail : service_log_tail st uid n = some (tail_lines svc.log_lines n) := by
      unfold service_log_tail
      rw [hsvc]
      rfl
    refine ⟨htail, tail_lines_length svc.log_lines n, ?_⟩
    unfold get_service_logs
    rw [htail]
    simp [hconn, hfault]

/-- Witness for C9 (amended): stC9 holds 150 lines for user 4 and no
service for user 8. -/
theorem claim9_amended_logs_witness :
    (service_log_tail stC9 8 2 = none → get_service_logs stC9 8 2 = "服务不存在") ∧
    (∀ svc, stC9.docker.services.find? (fun s => s.name == get_service_name 8) = some svc →
      service_log_tail stC9 8 2 = some (tail_lines svc.log_lines 2) ∧
      (tail_lines svc.log_lines 2).length = min 2 svc.log_lines.length ∧
      get_service_logs stC9 8 2 =
        String.intercalate "\n" (tail_lines svc.log_lines 2)) :=
  claim9_amended_logs stC9 8 2 rfl rfl

/-- C10 (implicit, unstartable worker for unsubscribed users): with
valid credentials but no active subscription, `create_service` succeeds
and records the user as running (`运行中`), yet the submitted
environment omits `FT_MAX_CAPITAL`, and the injected startup script
aborts with exit code 1 whenever that variable is absent or empty — so
the created worker can never pass its own startup checks, whatever
template is mounted. -/
theorem claim10_unsubscribed_unstartable (st : SysState) (uid : Nat) (user : UserRec)
    (k s : String) (b : NodeLoad)
    (hconn : st.docker.connected = true)
    (hnofail : st.docker.create_fails = false)
    (htmpl : (lookup_template st.fs.swarm_templates uid).isSome = true)
    (hbest : find_best_node st.docker = some b)
    (huser : get_user_by_telegram_id st.db uid = some user)
    (hk : user.api_key = some k) (hknz : k ≠ "")
    (hs : user.security = some s) (hsnz : s ≠ "")
    (hnosub : get_user_subscription st.db uid = none) :
    (create_service st uid).ok = true ∧
    (∃ u2, get_user_by_telegram_id (create_service st uid).st.db uid = some u2 ∧
      u2.status = "运行中") ∧
    (∃ sp, ((create_service st uid).st.docker.services.find?
        (fun sv => sv.name == get_service_name uid)).bind ServiceRec.spec = some sp ∧
      getenv sp.env "FT_MAX_CAPITAL" = "" ∧
      ∀ t, run_startup_script sp.env t = ScriptOutcome.exited 1) := by
  have hkb : (k == "") = false := by
    simp [hknz]
  have hsb : (s == "") = false := by
    simp [hsnz]
  unfold create_service ensure_user_directories
  simp only [hconn, htmpl, hbest, huser, hnosub, hnofail, hk, hs, Option.getD_some,
    hkb, hsb, Bool.or_self, Bool.not_true, Bool.not_false, Bool.false_eq_true,
    if_false, if_true, Bool.or_false, Bool.false_or]
  refine ⟨trivial, ?_, ?_⟩
  · refine ⟨{ user with status := "运行中" }, ?_, rfl⟩
    exact get_user_after_status
      (update_service_info st.db uid "new" (get_service_name uid)
        ((get_node_ip st.docker b.id).getD b.hostname) (get_user_api_port uid))
      uid user "运行中" huser
  · refine ⟨build_service_spec uid
      (build_env_vars k s none st.local_ip) (get_user_api_port uid) b
      ((get_node_ip st.docker b.id).getD b.hostname), ?_, rfl, ?_⟩
    · rw [find_filtered_append]
      simp
    · intro t
      have henv : (build_service_spec uid (build_env_vars k s none st.local_ip)
          (get_user_api_port uid) b ((get_node_ip st.docker b.id).getD b.hostname)).env =
          build_env_vars k s none st.local_ip := rfl
      unfold run_startup_script
      rw [henv]
      have e1 : getenv (build_env_vars k s none st.local_ip) "API_KEY" = k := rfl
      have e2 : getenv (build_env_vars k s none st.local_ip) "API_SECRET" = s := rfl
      have e3 : getenv (build_env_vars k s none st.local_ip) "FT_MAX_CAPITAL" = "" := rfl
      simp [e1, e2, e3, hkb, hsb]

/-- Witness for C10: the concrete unsubscribed state `stNoSub`. -/
theorem claim10_unsubscribed_unstartable_witness :
    (create_service stNoSub 5).ok = true ∧
    (∃ u2, get_user_by_telegram_id (create_service stNoSub 5).st.db 5 = some u2 ∧
      u2.status = "运行中") ∧
    (∃ sp, ((create_service stNoSub 5).st.docker.services.find?
        (fun sv => sv.name == get_service_name 5)).bind ServiceRec.spec = some sp ∧
      getenv sp.env "FT_MAX_CAPITAL" = "" ∧
      ∀ t, run_startup_script sp.env t = ScriptOutcome.exited 1) :=
  claim10_unsubscribed_unstartable stNoSub 5
    { user_id := 5, api_key := some "KEY", security := some "SEC" } "KEY" "SEC" stC6Load
    rfl rfl rfl (by decide) (by decide) rfl (by decide) rfl (by decide) rfl

end EasyMoney
